import Mathlib

/-!
Verification development for the trustcar.io inspection server (`server.js`).

The embedding below translates the data model and the operations of the
upload-intake pipeline, the token validation logic, the inspection
lifecycle endpoints and the fraud-scoring engine into executable Lean
definitions.  JavaScript numbers that only ever hold integers (epoch
milliseconds, mileages, sizes, scores) are modelled as `Int`/`Nat`;
numbers that may hold the result of `parseFloat` on arbitrary strings are
modelled by `JsNumber`, which distinguishes `NaN` and the infinities and
represents finite values exactly as rationals.  JavaScript object fields
that can be absent, explicitly `null`, or carry a value are modelled by
`JField`.  External effects (the EXIF parser, the sharp image library,
the Roboflow detection call) enter the model as explicit outcome
parameters, so every operation is a pure function of its inputs.
-/

set_option maxRecDepth 10000

namespace TrustCar

/-- Model of a JavaScript number as produced by `parseFloat`: `NaN`,
signed infinities, or a finite value represented exactly as a rational. -/
inductive JsNumber where
  | nan
  | posInf
  | negInf
  | num (q : ℚ)
deriving DecidableEq, Repr

/-- Whitespace skipped by JavaScript `parseFloat` (the common ASCII
whitespace characters plus no-break space). -/
def isJsWhitespace (c : Char) : Bool :=
  c = ' ' || c = '\t' || c = '\n' || c = '\r' || c = '\x0b' || c = '\x0c' || c = '\xa0'

/-- Value of a list of decimal digit characters. -/
def digitsToNat (l : List Char) : Nat :=
  l.foldl (fun a c => a * 10 + (c.toNat - 48)) 0

/-- `parseFloat` after an optional sign has been consumed: either the
literal `Infinity`, or a decimal mantissa (digits, optionally a dot and
more digits) with an optional exponent part.  If no digit (and no
`Infinity`) is found the result is `NaN`, exactly as in JavaScript. -/
def parseFloatAfterSign (neg : Bool) (l : List Char) : JsNumber :=
  if "Infinity".data.isPrefixOf l then (if neg then .negInf else .posInf)
  else
    let (ip, r1) := l.span Char.isDigit
    let (fp, r2) :=
      match r1 with
      | '.' :: rest => rest.span Char.isDigit
      | _ => ([], r1)
    if ip.isEmpty && fp.isEmpty then .nan
    else
      let mant : ℚ := (digitsToNat ip : ℚ) + (digitsToNat fp : ℚ) / ((10 : ℚ) ^ fp.length)
      let e : Int :=
        match r2 with
        | c :: rest =>
          if c = 'e' || c = 'E' then
            match rest with
            | '+' :: rest2 =>
              (if (rest2.span Char.isDigit).1.isEmpty then 0
               else ((digitsToNat (rest2.span Char.isDigit).1 : Int)))
            | '-' :: rest2 =>
              (if (rest2.span Char.isDigit).1.isEmpty then 0
               else (-(digitsToNat (rest2.span Char.isDigit).1 : Int)))
            | _ =>
              (if (rest.span Char.isDigit).1.isEmpty then 0
               else ((digitsToNat (rest.span Char.isDigit).1 : Int)))
          else 0
        | [] => 0
      let v : ℚ := mant * (10 : ℚ) ^ e
      .num (if neg then -v else v)

/-- Model of JavaScript `parseFloat`: skip leading whitespace, consume an
optional sign, then parse the longest numeric prefix; a string with no
numeric prefix parses to `NaN`. -/
def parseFloat (s : String) : JsNumber :=
  match s.data.dropWhile isJsWhitespace with
  | '+' :: rest => parseFloatAfterSign false rest
  | '-' :: rest => parseFloatAfterSign true rest
  | l => parseFloatAfterSign false l

namespace Sha256

/-- Reduce to a 32-bit word. -/
def mod32 (n : Nat) : Nat := n % 4294967296

/-- 32-bit rotate right. -/
def rotr (n x : Nat) : Nat := mod32 ((x >>> n) ||| (x <<< (32 - n)))

/-- The SHA-256 round constants. -/
def K : List Nat :=
  [1116352408, 1899447441, 3049323471, 3921009573, 961987163,
   1508970993, 2453635748, 2870763221, 3624381080, 310598401,
   607225278, 1426881987, 1925078388, 2162078206, 2614888103,
   3248222580, 3835390401, 4022224774, 264347078, 604807628,
   770255983, 1249150122, 1555081692, 1996064986, 2554220882,
   2821834349, 2952996808, 3210313671, 3336571891, 3584528711,
   113926993, 338241895, 666307205, 773529912, 1294757372,
   1396182291, 1695183700, 1986661051, 2177026350, 2456956037,
   2730485921, 2820302411, 3259730800, 3345764771, 3516065817,
   3600352804, 4094571909, 275423344, 430227734, 506948616,
   659060556, 883997877, 958139571, 1322822218, 1537002063,
   1747873779, 1955562222, 2024104815, 2227730452, 2361852424,
   2428436474, 2756734187, 3204031479, 3329325298]

/-- Message-schedule sigma functions and compression sigma functions. -/
def smallSigma0 (x : Nat) : Nat := ((rotr 7 x).xor (rotr 18 x)).xor (x >>> 3)

def smallSigma1 (x : Nat) : Nat := ((rotr 17 x).xor (rotr 19 x)).xor (x >>> 10)

def bigSigma0 (x : Nat) : Nat := ((rotr 2 x).xor (rotr 13 x)).xor (rotr 22 x)

def bigSigma1 (x : Nat) : Nat := ((rotr 6 x).xor (rotr 11 x)).xor (rotr 25 x)

/-- SHA-256 choose function (the complement is taken inside 32 bits). -/
def chf (x y z : Nat) : Nat := (x.land y).xor ((x.xor 4294967295).land z)

/-- SHA-256 majority function. -/
def maj (x y z : Nat) : Nat := ((x.land y).xor (x.land z)).xor (y.land z)

/-- The eight-byte big-endian encoding of the message bit length. -/
def lenBytes (bitLen : Nat) : List Nat :=
  (List.range 8).map (fun i => (bitLen >>> ((7 - i) * 8)) % 256)

/-- SHA-256 padding: append `0x80`, zero bytes up to 56 mod 64, then the
bit length. -/
def padMessage (msg : List Nat) : List Nat :=
  msg ++ [0x80] ++ List.replicate ((119 - msg.length % 64) % 64) 0 ++ lenBytes (msg.length * 8)

/-- Split a byte list into 64-byte blocks (structural recursion on a
fuel bound so the kernel can evaluate digests by reduction). -/
def chunksAux : Nat → List Nat → List (List Nat)
  | 0, _ => []
  | _, [] => []
  | fuel + 1, x :: xs => ((x :: xs).take 64) :: chunksAux fuel ((x :: xs).drop 64)

/-- Split a byte list into 64-byte blocks. -/
def chunks (l : List Nat) : List (List Nat) := chunksAux l.length l

/-- The sixteen initial big-endian 32-bit words of one 64-byte block. -/
def toWords (chunk : List Nat) : List Nat :=
  (List.range 16).map (fun i =>
    (chunk.getD (4 * i) 0) * 16777216 + (chunk.getD (4 * i + 1) 0) * 65536 +
      (chunk.getD (4 * i + 2) 0) * 256 + chunk.getD (4 * i + 3) 0)

/-- Extend sixteen schedule words to sixty-four. -/
def extendWords (w : List Nat) : List Nat :=
  (List.range 48).foldl
    (fun w _ =>
      let i := w.length
      w ++ [mod32 (w.getD (i - 16) 0 + smallSigma0 (w.getD (i - 15) 0) +
                   w.getD (i - 7) 0 + smallSigma1 (w.getD (i - 2) 0))])
    w

/-- The eight 32-bit working variables of the compression function. -/
structure Hash8 where
  a : Nat
  b : Nat
  c : Nat
  d : Nat
  e : Nat
  f : Nat
  g : Nat
  h : Nat
deriving DecidableEq, Repr

/-- One round of the SHA-256 compression function. -/
def compressStep (st : Hash8) (kw : Nat × Nat) : Hash8 :=
  let t1 := mod32 (st.h + bigSigma1 st.e + chf st.e st.f st.g + kw.1 + kw.2)
  let t2 := mod32 (bigSigma0 st.a + maj st.a st.b st.c)
  ⟨mod32 (t1 + t2), st.a, st.b, st.c, mod32 (st.d + t1), st.e, st.f, st.g⟩

/-- Process one 64-byte block. -/
def compressChunk (st : Hash8) (chunk : List Nat) : Hash8 :=
  let w := extendWords (toWords chunk)
  let fin := (K.zip w).foldl compressStep st
  ⟨mod32 (st.a + fin.a), mod32 (st.b + fin.b), mod32 (st.c + fin.c), mod32 (st.d + fin.d),
   mod32 (st.e + fin.e), mod32 (st.f + fin.f), mod32 (st.g + fin.g), mod32 (st.h + fin.h)⟩

/-- The SHA-256 initial hash value. -/
def initH : Hash8 :=
  ⟨1779033703, 3144134277, 1013904242, 2773480762,
   1359893119, 2600822924, 528734635, 1541459225⟩

/-- Lower-case hexadecimal digit. -/
def hexDigit (n : Nat) : Char := if n < 10 then Char.ofNat (48 + n) else Char.ofNat (87 + n)

/-- Eight-character lower-case hexadecimal rendering of a 32-bit word. -/
def hex8 (n : Nat) : List Char :=
  (List.range 8).map (fun i => hexDigit ((n >>> ((7 - i) * 4)) % 16))

/-- Lower-case hexadecimal SHA-256 digest of a byte list. -/
def sha256Hex (msg : List Nat) : String :=
  let st := (chunks (padMessage msg)).foldl compressChunk initH
  ⟨hex8 st.a ++ hex8 st.b ++ hex8 st.c ++ hex8 st.d ++
   hex8 st.e ++ hex8 st.f ++ hex8 st.g ++ hex8 st.h⟩

end Sha256

/-- UTF-8 encoding of one character, as `crypto.createHash(...).update`
applies to a JavaScript string. -/
def utf8Char (c : Char) : List Nat :=
  let n := c.toNat
  if n < 128 then [n]
  else if n < 2048 then [192 + n / 64, 128 + n % 64]
  else if n < 65536 then [224 + n / 4096, 128 + (n / 64) % 64, 128 + n % 64]
  else [240 + n / 262144, 128 + (n / 4096) % 64, 128 + (n / 64) % 64, 128 + n % 64]

/-- UTF-8 byte sequence of a string. -/
def utf8Bytes (s : String) : List Nat := s.data.flatMap utf8Char

/-- `hashToken` from `server.js`: the lower-case hexadecimal SHA-256
digest of the token string. -/
def hashToken (token : String) : String := Sha256.sha256Hex (utf8Bytes token)

end TrustCar

namespace TrustCar

/-- A JavaScript object field that can be missing from the object,
explicitly `null`, or carry a value. -/
inductive JField (α : Type) where
  | absent
  | null
  | val (a : α)
deriving DecidableEq, Repr

/-- JavaScript truthiness of an optional string (`undefined` and the
empty string are falsy). -/
def strTruthy : Option String → Bool
  | some s => s ≠ ""
  | none => false

/-- JavaScript `x || d` for an optional integer field (`undefined` and
`0` are falsy). -/
def jsOrInt (v : Option Int) (d : Int) : Int :=
  match v with
  | some n => if n = 0 then d else n
  | none => d

/-- JavaScript `x || null` for an optional integer field. -/
def jsOrNull (v : Option Int) : Option Int :=
  match v with
  | some n => if n = 0 then none else some n
  | none => none

/-- String interpolation of a possibly-undefined string value
(JavaScript renders `undefined` as the text `undefined`). -/
def jsShowOpt : Option String → String
  | some s => s
  | none => "undefined"

/-- `Math.round` (half away from zero toward positive infinity). -/
def jsRound (q : ℚ) : Int := ⌊q + 1 / 2⌋

/-- A GPS coordinate pair extracted from EXIF tags. -/
structure Gps where
  lat : ℚ
  lng : ℚ
deriving DecidableEq, Repr

/-- The `exif` object attached to an upload (step 6 of intake). -/
structure Exif where
  gps : Option Gps
  timestamp : Option Int
  make : Option String
  model : Option String
  orientation : Option Int
deriving DecidableEq, Repr

/-- The `quality` object attached to an upload (step 7 of intake). -/
structure Quality where
  width : Int
  height : Int
  avgLuminance : Int
  isDark : Bool
  isLowRes : Bool
  warnings : List String
deriving DecidableEq, Repr

/-- One normalized prediction from the damage-detection provider. -/
structure Prediction where
  className : String
  confidence : ℚ
deriving DecidableEq, Repr

/-- The `detection` object attached to an upload by the Roboflow call. -/
structure Detection where
  timestamp : Int
  predictions : List Prediction
  image : Option String
deriving DecidableEq, Repr

/-- One upload record, as built by `POST /api/inspections/:id/uploads`
or `POST /api/inspections/:id/notify` in `server.js`. -/
structure Upload where
  id : String
  inspectionId : String
  filename : String
  originalname : String
  mimetype : String
  size : Option Int
  path : String
  s3Url : Option String := none
  checkItem : Option String
  lat : Option JsNumber
  lng : Option JsNumber
  accuracy : Option JsNumber
  uploadedAt : Int
  exif : JField Exif := .absent
  quality : JField Quality := .absent
  detection : JField Detection := .absent
  ocrVin : Option String := none
deriving DecidableEq, Repr

/-- The fraud assessment produced by `GET /api/inspections/:id/fraud-score`. -/
structure FraudAssessment where
  inspectionId : String
  vin : Option String
  score : Nat
  level : String
  autoFlag : Bool
  flags : List String
  timestamp : Int
deriving DecidableEq, Repr

/-- The `aiReport` object consulted by the approve-report endpoint. -/
structure AiReport where
  reviewed : Bool := false
  reviewedAt : Option Int := none
  reviewedBy : Option String := none
deriving DecidableEq, Repr

/-- One inspection record, as created by `POST /api/inspections` and
mutated by the lifecycle endpoints.  The `status` field is a plain
string in the source, so it is a plain `String` here. -/
structure Inspection where
  id : String
  orderId : Option String := none
  buyerEmail : Option String := none
  sellerPhone : Option String := none
  sellerEmail : Option String := none
  price : Option Int := none
  notes : Option String := none
  tokenHash : String
  tokenExpiry : Int
  status : String
  createdAt : Int := 0
  vin : Option String := none
  odometerReading : Option Int := none
  sellerZip : Option String := none
  sellerDisclosedDamage : Bool := false
  aiReport : Option AiReport := none
  fraudScore : Option FraudAssessment := none
  buyerZip : Option String := none
  vehicle : Option String := none
  flagReason : Option String := none
  updatedAt : Option Int := none
deriving DecidableEq, Repr

/-- The `lastReading` sub-object of a VIN record's odometer history. -/
structure OdometerLastReading where
  mileage : Option Int
deriving DecidableEq, Repr

/-- The `odometer` sub-object of a VIN record. -/
structure VinOdometer where
  lastReading : Option OdometerLastReading
deriving DecidableEq, Repr

/-- The `ownership` sub-object of a VIN record. -/
structure VinOwnership where
  count : Option Int
deriving DecidableEq, Repr

/-- One cached vehicle-history record, as saved by
`POST /api/vin-records` (which stores `vin.toUpperCase()`). -/
structure VinRecord where
  id : String := ""
  vin : String
  odometer : Option VinOdometer := none
  ownership : Option VinOwnership := none
  timestamp : Int := 0
  createdAt : Int := 0
deriving DecidableEq, Repr

/-- The flat-file store (`data.json`): inspections, uploads and the
VIN-record side cache. -/
structure Store where
  inspections : List Inspection
  uploads : List Upload
  vinRecords : List VinRecord
deriving DecidableEq, Repr

/-- Replace the first element satisfying `p` (the source mutates the
single object returned by `Array.prototype.find`). -/
def replaceFirst (p : Inspection → Bool) (i : Inspection) : List Inspection → List Inspection
  | [] => []
  | x :: xs => if p x then i :: xs else x :: replaceFirst p i xs

/-- Outcome of `GET /api/inspections/:id/validate`. -/
inductive ValidateResult where
  | notFound
  | missingToken
  | invalidToken
  | tokenExpired
  | ok (inspectionId : String) (orderId : Option String)
deriving DecidableEq, Repr

/-- `GET /api/inspections/:id/validate` from `server.js`: resolve the
inspection, require a token, compare SHA-256 digests, then check expiry
(in exactly this order). -/
def validateToken (data : Store) (id : String) (token : Option String) (now : Int) :
    ValidateResult :=
  match data.inspections.find? (fun x => x.id = id) with
  | none => .notFound
  | some insp =>
    match token with
    | none => .missingToken
    | some t =>
      if t = "" then .missingToken
      else if hashToken t ≠ insp.tokenHash then .invalidToken
      else if now > insp.tokenExpiry then .tokenExpired
      else .ok insp.id insp.orderId

end TrustCar

namespace TrustCar

/-- JavaScript `s || null` for an optional string field. -/
def jsOrStrNull (v : Option String) : Option String :=
  match v with
  | some s => if s = "" then none else some s
  | none => none

/-- JavaScript `s || d` for an optional string field. -/
def jsOrStr (v : Option String) (d : String) : String :=
  match v with
  | some s => if s = "" then d else s
  | none => d

/-- The multipart form fields of `POST /api/inspections/:id/uploads`
(every multipart field arrives as a string or is absent). -/
structure UploadBody where
  checkItem : Option String := none
  lat : Option String := none
  lng : Option String := none
  accuracy : Option String := none
deriving DecidableEq, Repr

/-- The file part persisted by multer before the handler runs. -/
structure FileInfo where
  filename : String
  originalname : String
  mimetype : String
  size : Int
deriving DecidableEq, Repr

/-- Outcome of the EXIF extraction step: the parser threw, parsed but
produced no tags object, or produced tags. -/
inductive ExifOutcome where
  | errored
  | noTags
  | tags (e : Exif)
deriving DecidableEq, Repr

/-- The metadata sharp reports for an image. -/
structure SharpMeta where
  width : Int
  height : Int
deriving DecidableEq, Repr

/-- The per-channel statistics sharp reports for an image. -/
structure SharpStats where
  channelMeans : List ℚ
deriving DecidableEq, Repr

/-- Outcome of the sharp quality-analysis step. -/
inductive QualityOutcome where
  | errored
  | ok (meta : SharpMeta) (stats : SharpStats)
deriving DecidableEq, Repr

/-- Outcome of the enclosing analysis block: reading the stored file
back failed (neither derived field is set), or it succeeded and each
analysis has its own outcome. -/
inductive AnalysisOutcome where
  | readError
  | ok (exifOut : ExifOutcome) (qualityOut : QualityOutcome)
deriving DecidableEq, Repr

/-- Outcome of the awaited Roboflow detection call: the request threw,
returned a body without a `predictions` field, or returned predictions
(possibly an empty list, which is truthy in JavaScript). -/
inductive DetectOutcome where
  | failed
  | noPredictions
  | got (predictions : List Prediction) (image : Option String)
deriving DecidableEq, Repr

/-- Outcome of `POST /api/inspections/:id/uploads`. -/
inductive IntakeResult where
  | notFound
  | missingToken
  | invalidToken
  | tokenExpired
  | noFile
  | ok (file : Upload)
deriving DecidableEq, Repr

/-- `req.body && req.body.f ? parseFloat(req.body.f) : null` for the
declared coordinate fields of the multipart endpoint. -/
def coerceCoord (body : Option UploadBody) (field : UploadBody → Option String) :
    Option JsNumber :=
  match body with
  | some b =>
    match field b with
    | some s => if s = "" then none else some (parseFloat s)
    | none => none
  | none => none

/-- `req.body && req.body.checkItem ? req.body.checkItem : null`. -/
def coerceCheckItem (body : Option UploadBody) : Option String :=
  match body with
  | some b => jsOrStrNull b.checkItem
  | none => none

/-- Step 5 of intake: the upload entry as first constructed, with the
declared metadata coerced. -/
def intakeEntryBase (id : String) (f : FileInfo) (body : Option UploadBody) (newId : String)
    (now : Int) : Upload :=
  { id := newId, inspectionId := id, filename := f.filename,
    originalname := f.originalname, mimetype := f.mimetype, size := some f.size,
    path := "/uploads/" ++ f.filename,
    checkItem := coerceCheckItem body,
    lat := coerceCoord body (fun b => b.lat),
    lng := coerceCoord body (fun b => b.lng),
    accuracy := coerceCoord body (fun b => b.accuracy),
    uploadedAt := now }

/-- Steps 6–7 of intake: attach the EXIF and quality outcomes to the
entry; a thrown extraction sets the field to an explicit null, a parse
with no tags leaves `exif` absent, and a failed file read leaves both
fields absent. -/
def enrichEntry (analysis : AnalysisOutcome) (entry0 : Upload) : Upload :=
  match analysis with
  | .readError => entry0
  | .ok exifOut qualityOut =>
    let e1 :=
      match exifOut with
      | .errored => { entry0 with exif := .null }
      | .noTags => entry0
      | .tags e => { entry0 with exif := .val e }
    match qualityOut with
    | .errored => { e1 with quality := .null }
    | .ok meta stats =>
      let avgLuminance : ℚ :=
        (stats.channelMeans.foldl (· + ·) 0) / (stats.channelMeans.length : ℚ)
      let isDark := decide (avgLuminance < 40)
      let isLowRes := decide (meta.width < 800) || decide (meta.height < 600)
      let warnings :=
        (if isDark then ["Photo may be too dark"] else []) ++
        (if isLowRes then ["Resolution below 800x600"] else [])
      { e1 with quality := .val (
          { width := meta.width, height := meta.height,
            avgLuminance := jsRound avgLuminance, isDark := isDark,
            isLowRes := isLowRes, warnings := warnings } : Quality) }

/-- Step 9 of intake: when Roboflow is configured and the entry has a
checklist category, the awaited detection call's successful result is
merged into the entry; a thrown call or a body without predictions
leaves the field untouched. -/
def attachDetection (cfg : Bool) (det : DetectOutcome) (dt : Int) (entry1 : Upload) : Upload :=
  if cfg && entry1.checkItem.isSome then
    match det with
    | .got preds img =>
      { entry1 with detection := .val (
          { timestamp := dt, predictions := preds, image := img } : Detection) }
    | _ => entry1
  else entry1

/-- The upload record as returned (and stored) by a successful intake:
construction, enrichment, then the awaited detection merge. -/
def intakeEntry (id : String) (f : FileInfo) (body : Option UploadBody) (newId : String)
    (now : Int) (analysis : AnalysisOutcome) (cfg : Bool) (det : DetectOutcome) (dt : Int) :
    Upload :=
  attachDetection cfg det dt (enrichEntry analysis (intakeEntryBase id f body newId now))

/-- `POST /api/inspections/:id/uploads` from `server.js`: resolve the
inspection, run the token checks (hash before expiry), require a file,
build the upload entry with coerced declared metadata, enrich it with
the EXIF and quality outcomes (failures set the field to an explicit
null), append it, transition a `pending` inspection to `submitted`, and
— when Roboflow is configured and a checklist category was declared —
await the detection call and merge its result into the entry before the
response is produced.  `newId`, `now` and `detectTime` stand for the
generated UUID and the two `Date.now()` readings. -/
def intakeUpload (data : Store) (id : String) (token : Option String) (file : Option FileInfo)
    (body : Option UploadBody) (newId : String) (now : Int) (analysis : AnalysisOutcome)
    (roboflowConfigured : Bool) (detect : DetectOutcome) (detectTime : Int) :
    IntakeResult × Store :=
  match data.inspections.find? (fun x => x.id = id) with
  | none => (.notFound, data)
  | some insp =>
    match token with
    | none => (.missingToken, data)
    | some t =>
      if t = "" then (.missingToken, data)
      else if hashToken t ≠ insp.tokenHash then (.invalidToken, data)
      else if now > insp.tokenExpiry then (.tokenExpired, data)
      else
        match file with
        | none => (.noFile, data)
        | some f =>
          let entry2 := intakeEntry id f body newId now analysis roboflowConfigured
            detect detectTime
          let insp1 :=
            if insp.status = "pending" then { insp with status := "submitted" } else insp
          (.ok entry2,
            { data with
                inspections := replaceFirst (fun x => x.id = id) insp1 data.inspections,
                uploads := data.uploads ++ [entry2] })

end TrustCar

namespace TrustCar

/-- Characters `encodeURIComponent` leaves unescaped. -/
def uriUnreserved (c : Char) : Bool :=
  c.isAlphanum || c = '-' || c = '_' || c = '.' || c = '!' || c = '~' ||
    c = '*' || c = '\x27' || c = '(' || c = ')'

/-- Percent-encoding of one byte. -/
def pctByte (n : Nat) : List Char :=
  ['%', Sha256.hexDigit (n / 16) |>.toUpper, Sha256.hexDigit (n % 16) |>.toUpper]

/-- Model of JavaScript `encodeURIComponent`. -/
def encodeURIComponent (s : String) : String :=
  ⟨s.data.flatMap (fun c => if uriUnreserved c then [c] else (utf8Char c).flatMap pctByte)⟩

/-- The JSON body of `POST /api/inspections/:id/notify`.  The coordinate
fields distinguish absent, explicit `null`, and a supplied value, which
the handler treats differently from the multipart endpoint. -/
structure NotifyBody where
  key : Option String := none
  filename : Option String := none
  mimetype : Option String := none
  size : Option Int := none
  checkItem : Option String := none
  lat : JField String := .absent
  lng : JField String := .absent
  accuracy : JField String := .absent
deriving DecidableEq, Repr

/-- `lat !== undefined ? (lat === null ? null : parseFloat(lat)) : null`. -/
def coerceNotifyCoord : JField String → Option JsNumber
  | .absent => none
  | .null => none
  | .val s => some (parseFloat s)

/-- Outcome of `POST /api/inspections/:id/notify`. -/
inductive NotifyResult where
  | missingKeyOrFilename
  | notFound
  | missingToken
  | invalidToken
  | tokenExpired
  | ok (file : Upload)
deriving DecidableEq, Repr

/-- `POST /api/inspections/:id/notify` from `server.js`: require `key`
and `filename`, resolve the inspection, run the same token checks as the
multipart endpoint, record the S3 upload metadata, append it and
transition a `pending` inspection to `submitted`. -/
def notifyUpload (data : Store) (id : String) (token : Option String)
    (body : Option NotifyBody) (bucket region : String) (newId : String) (now : Int) :
    NotifyResult × Store :=
  let b := body.getD {}
  if !(strTruthy b.key) || !(strTruthy b.filename) then (.missingKeyOrFilename, data)
  else
    match data.inspections.find? (fun x => x.id = id) with
    | none => (.notFound, data)
    | some insp =>
      match token with
      | none => (.missingToken, data)
      | some t =>
        if t = "" then (.missingToken, data)
        else if hashToken t ≠ insp.tokenHash then (.invalidToken, data)
        else if now > insp.tokenExpiry then (.tokenExpired, data)
        else
          let key := b.key.getD ""
          let filename := b.filename.getD ""
          let entry : Upload :=
            { id := newId, inspectionId := id, filename := filename,
              originalname := filename, mimetype := jsOrStr b.mimetype "application/octet-stream",
              size := jsOrNull b.size,
              path := "s3://" ++ bucket ++ "/" ++ key,
              s3Url := some ("https://" ++ bucket ++ ".s3." ++ region ++ ".amazonaws.com/" ++
                encodeURIComponent key),
              checkItem := jsOrStrNull b.checkItem,
              lat := coerceNotifyCoord b.lat,
              lng := coerceNotifyCoord b.lng,
              accuracy := coerceNotifyCoord b.accuracy,
              uploadedAt := now }
          let insp1 :=
            if insp.status = "pending" then { insp with status := "submitted" } else insp
          (.ok entry,
            { data with
                inspections := replaceFirst (fun x => x.id = id) insp1 data.inspections,
                uploads := data.uploads ++ [entry] })

/-- `POST /api/inspections` from `server.js`: create an inspection with
status `pending`, the SHA-256 hash of the fresh token, and a 48-hour
expiry. -/
def createInspection (data : Store) (newId token : String)
    (orderId buyerEmail sellerPhone sellerEmail : Option String) (price : Option Int)
    (notes : Option String) (now : Int) : Inspection × Store :=
  let insp : Inspection :=
    { id := newId,
      orderId := jsOrStrNull orderId,
      buyerEmail := jsOrStrNull buyerEmail,
      sellerPhone := jsOrStrNull sellerPhone,
      sellerEmail := jsOrStrNull sellerEmail,
      price := jsOrNull price,
      notes := jsOrStrNull notes,
      tokenHash := hashToken token,
      tokenExpiry := now + 48 * 3600 * 1000,
      status := "pending",
      createdAt := now }
  (insp, { data with inspections := data.inspections ++ [insp] })

/-- `POST /api/inspections/:id/mark-complete` from `server.js`: set the
inspection's status to the string `complete` (`none` models the 404). -/
def markComplete (data : Store) (id : String) : Option Store :=
  match data.inspections.find? (fun x => x.id = id) with
  | none => none
  | some insp =>
    let insp1 : Inspection := { insp with status := "complete" }
    some ({ data with
              inspections := replaceFirst (fun x => x.id = id) insp1 data.inspections })

/-- Outcome of `POST /api/inspections/:id/approve-report`. -/
inductive ApproveResult where
  | notFound
  | noReport
  | ok
deriving DecidableEq, Repr

/-- `POST /api/inspections/:id/approve-report` from `server.js`: require
an existing `aiReport`, mark it reviewed and set the inspection's status
to `completed`. -/
def approveReport (data : Store) (id : String) (reviewerName : Option String) (now : Int) :
    ApproveResult × Store :=
  match data.inspections.find? (fun x => x.id = id) with
  | none => (.notFound, data)
  | some insp =>
    match insp.aiReport with
    | none => (.noReport, data)
    | some rep =>
      let rep1 : AiReport :=
        { rep with reviewed := true, reviewedAt := some now,
                   reviewedBy := some (jsOrStr reviewerName "admin") }
      let insp1 := { insp with aiReport := some rep1, status := "completed" }
      (.ok, { data with
                inspections := replaceFirst (fun x => x.id = id) insp1 data.inspections })

/-- The admin update payload of `PUT /api/inspections/:id`; a `some`
field models a key present in the request body (present fields are
copied onto the inspection unvalidated). -/
structure PutPayload where
  status : Option String := none
  buyerZip : Option String := none
  buyerEmail : Option String := none
  price : Option Int := none
  vehicle : Option String := none
  orderId : Option String := none
  notes : Option String := none
  flagReason : Option String := none
deriving DecidableEq, Repr

/-- `PUT /api/inspections/:id` from `server.js`: copy every present
allowed field of the payload onto the inspection — including an
arbitrary caller-supplied `status` string. -/
def putUpdate (data : Store) (id : String) (payload : PutPayload) (now : Int) :
    Option (Inspection × Store) :=
  match data.inspections.find? (fun x => x.id = id) with
  | none => none
  | some insp =>
    let insp1 : Inspection := { insp with
      status := payload.status.getD insp.status,
      buyerZip := if payload.buyerZip.isSome then payload.buyerZip else insp.buyerZip,
      buyerEmail := if payload.buyerEmail.isSome then payload.buyerEmail else insp.buyerEmail,
      price := if payload.price.isSome then payload.price else insp.price,
      vehicle := if payload.vehicle.isSome then payload.vehicle else insp.vehicle,
      orderId := if payload.orderId.isSome then payload.orderId else insp.orderId,
      notes := if payload.notes.isSome then payload.notes else insp.notes,
      flagReason := if payload.flagReason.isSome then payload.flagReason else insp.flagReason,
      updatedAt := some now }
    some (insp1, { data with
                     inspections := replaceFirst (fun x => x.id = id) insp1 data.inspections })

/-- ASCII upper-casing of one character, as JavaScript `toUpperCase`
acts on the ASCII range (VINs and the strings in the claims are ASCII). -/
def jsToUpperChar (c : Char) : Char :=
  if 97 ≤ c.toNat ∧ c.toNat ≤ 122 then Char.ofNat (c.toNat - 32) else c

/-- ASCII model of JavaScript `String.prototype.toUpperCase`. -/
def jsToUpperCase (s : String) : String := ⟨s.data.map jsToUpperChar⟩

/-- An ASCII lower-case letter. -/
def isAsciiLower (c : Char) : Bool := 97 ≤ c.toNat && c.toNat ≤ 122

/-- `POST /api/vin-records` from `server.js`: store the record keyed by
`vin.toUpperCase()` (`none` models the 400 for a missing VIN).  The
endpoint persists only decode/recall/safety payloads, so the stored
record's `odometer` and `ownership` sub-objects are absent. -/
def saveVinRecord (data : Store) (newId : String) (vin : Option String)
    (timestamp : Option Int) (now : Int) : Option Store :=
  if !(strTruthy vin) then none
  else
    some { data with vinRecords := data.vinRecords ++
      [{ id := newId, vin := jsToUpperCase (vin.getD ""),
         timestamp := jsOrInt timestamp now, createdAt := now }] }

end TrustCar

namespace TrustCar

/-- `data.vinRecords?.find(v => v.vin === insp.vin)`: exact,
case-sensitive string match on the inspection's declared VIN. -/
def findVinRecord (records : List VinRecord) : Option String → Option VinRecord
  | some v => records.find? (fun r => r.vin = v)
  | none => none

/-- The GPS coordinates of the uploads whose `exif.gps` is truthy. -/
def gpsCoordsOf (uploads : List Upload) : List Gps :=
  uploads.filterMap (fun u => match u.exif with | .val e => e.gps | _ => none)

/-- Signal 1 (GPS mismatch, +25): some extracted coordinate is flagged
by the placeholder heuristic `Math.abs(gps.lat - 40) > 5`, and the
inspection has a truthy `sellerZip`. -/
def trigger1 (insp : Inspection) (uploads : List Upload) : Bool :=
  let gpsCoords := gpsCoordsOf uploads
  gpsCoords.length > 0 && strTruthy insp.sellerZip &&
    gpsCoords.any (fun gps => decide ((5 : ℚ) < |gps.lat - 40|))

/-- `insp.odometerReading || 0`. -/
def declaredMileage (insp : Inspection) : Int := jsOrInt insp.odometerReading 0

/-- The `lastReading` object reached by `vinRecord?.odometer?.lastReading`. -/
def historyLastReading (vinRecord : Option VinRecord) : Option OdometerLastReading :=
  vinRecord.bind (fun r => r.odometer.bind (fun od => od.lastReading))

/-- `vinRecord.odometer.lastReading.mileage || 0`. -/
def historyMileage (vinRecord : Option VinRecord) : Int :=
  jsOrInt ((historyLastReading vinRecord).bind (fun lr => lr.mileage)) 0

/-- Signal 2 (odometer discrepancy, +30): an upload in the `odometer`
checklist category exists, the VIN record has a last odometer reading,
and `declaredMileage < historyMileage - 5000`. -/
def trigger2 (insp : Inspection) (uploads : List Upload) (vinRecord : Option VinRecord) :
    Bool :=
  (uploads.find? (fun u => u.checkItem = some "odometer")).isSome &&
    (historyLastReading vinRecord).isSome &&
    decide (declaredMileage insp < historyMileage vinRecord - 5000)

/-- The number of uploads carrying a non-empty detection prediction list. -/
def damageCount (uploads : List Upload) : Nat :=
  (uploads.filter (fun u =>
    match u.detection with | .val d => d.predictions.length > 0 | _ => false)).length

/-- Signal 3 (undisclosed damage, +20). -/
def trigger3 (insp : Inspection) (uploads : List Upload) : Bool :=
  damageCount uploads > 0 && !insp.sellerDisclosedDamage

/-- The first upload in the `vin_plate` checklist category. -/
def vinPlateUpload (uploads : List Upload) : Option Upload :=
  uploads.find? (fun u => u.checkItem = some "vin_plate")

/-- Signal 4 (VIN plate OCR mismatch, +35): the VIN-plate upload carries
a truthy `ocrVin` strictly different from the declared VIN. -/
def trigger4 (insp : Inspection) (uploads : List Upload) : Bool :=
  match vinPlateUpload uploads with
  | some u => strTruthy u.ocrVin && decide (u.ocrVin ≠ insp.vin)
  | none => false

/-- `vinRecord?.ownership?.count`. -/
def ownershipCount (vinRecord : Option VinRecord) : Option Int :=
  vinRecord.bind (fun r => r.ownership.bind (fun ow => ow.count))

/-- Signal 5 (title flipping, +15): ownership-transfer count at least 2
(the source checks the same bound twice in a row). -/
def trigger5 (vinRecord : Option VinRecord) : Bool :=
  match ownershipCount vinRecord with
  | some n => decide (n ≥ 2)
  | none => false

/-- The number of uploads whose quality object carries a warning. -/
def lowQualityCount (uploads : List Upload) : Nat :=
  (uploads.filter (fun u =>
    match u.quality with | .val q => q.warnings.length > 0 | _ => false)).length

/-- Signal 6 (image quality, +10): more than five uploads carry at
least one quality warning. -/
def trigger6 (uploads : List Upload) : Bool :=
  lowQualityCount uploads > 5

/-- The accumulated score before the final clamp: the sum of the
triggered signal weights, evaluated in table order. -/
def fraudScoreRaw (insp : Inspection) (uploads : List Upload) (vinRecord : Option VinRecord) :
    Nat :=
  (if trigger1 insp uploads then 25 else 0) +
  (if trigger2 insp uploads vinRecord then 30 else 0) +
  (if trigger3 insp uploads then 20 else 0) +
  (if trigger4 insp uploads then 35 else 0) +
  (if trigger5 vinRecord then 15 else 0) +
  (if trigger6 uploads then 10 else 0)

/-- The accumulated flag list, in signal order 1 to 6. -/
def fraudFlags (insp : Inspection) (uploads : List Upload) (vinRecord : Option VinRecord) :
    List String :=
  (if trigger1 insp uploads then
    ["GPS location mismatch: Photos taken outside seller\x27s claimed area"] else []) ++
  (if trigger2 insp uploads vinRecord then
    [s!"Odometer rollback suspected: Declared {declaredMileage insp} mi < History {historyMileage vinRecord} mi"]
   else []) ++
  (if trigger3 insp uploads then
    [s!"AI detected {damageCount uploads} damaged areas not disclosed by seller"] else []) ++
  (if trigger4 insp uploads then
    [s!"VIN mismatch: Plate shows {jsShowOpt ((vinPlateUpload uploads).bind (fun u => u.ocrVin))}, seller entered {jsShowOpt insp.vin}"]
   else []) ++
  (if trigger5 vinRecord then
    [s!"Potential flip: {(ownershipCount vinRecord).getD 0} ownership transfers in short period"]
   else []) ++
  (if trigger6 uploads then
    [s!"{lowQualityCount uploads} low-quality photos may be hiding damage"] else [])

/-- `score < 30 ? 'low' : score < 70 ? 'medium' : 'high'`. -/
def levelOf (score : Nat) : String :=
  if score < 30 then "low" else if score < 70 then "medium" else "high"

/-- `score >= 70`. -/
def autoFlagOf (score : Nat) : Bool := decide (score ≥ 70)

/-- The fraud assessment as a pure function of the inspection, its
uploads, its (possibly missing) VIN record, and the `Date.now()` reading
taken when the result object is built. -/
def assessmentOf (insp : Inspection) (uploads : List Upload) (vinRecord : Option VinRecord)
    (now : Int) : FraudAssessment :=
  let score := min (fraudScoreRaw insp uploads vinRecord) 100
  { inspectionId := insp.id, vin := insp.vin, score := score,
    level := levelOf score, autoFlag := autoFlagOf score,
    flags := fraudFlags insp uploads vinRecord, timestamp := now }

/-- `GET /api/inspections/:id/fraud-score` from `server.js`: resolve the
inspection, gather its uploads and its VIN record (by exact VIN match),
compute the assessment, and persist it onto the inspection (`none`
models the 404). -/
def fraudScore (data : Store) (id : String) (now : Int) :
    Option (FraudAssessment × Store) :=
  match data.inspections.find? (fun i => i.id = id) with
  | none => none
  | some insp =>
    let uploads := data.uploads.filter (fun u => u.inspectionId = insp.id)
    let vinRecord := findVinRecord data.vinRecords insp.vin
    let result := assessmentOf insp uploads vinRecord now
    let insp1 : Inspection := { insp with fraudScore := some result }
    let inspections1 := replaceFirst (fun x => x.id = id) insp1 data.inspections
    some (result, { data with inspections := inspections1 })

end TrustCar

namespace TrustCar

/-- The upload carried by a successful intake result. -/
def intakeFile : IntakeResult → Option Upload
  | .ok e => some e
  | _ => none

/-- After replacing the first element satisfying `p`, searching for `p`
finds the replacement (provided it satisfies `p`). -/
theorem find?_replaceFirst (l : List Inspection) (p : Inspection → Bool) (i x : Inspection)
    (hfind : l.find? p = some x) (hp : p i = true) :
    (replaceFirst p i l).find? p = some i := by
  induction l with
  | nil => simp at hfind
  | cons a as ih =>
    by_cases ha : p a
    · simp [replaceFirst, ha, List.find?_cons_of_pos, hp]
    · rw [List.find?_cons_of_neg _ (by simp [ha])] at hfind
      simp [replaceFirst, ha, List.find?_cons_of_neg, ih hfind]

/-- The three level bands of `levelOf` are exact and exclusive. -/
theorem levelOf_band (s : Nat) :
    (levelOf s = "low" ↔ s < 30) ∧ (levelOf s = "medium" ↔ 30 ≤ s ∧ s < 70) ∧
    (levelOf s = "high" ↔ 70 ≤ s) := by
  unfold levelOf
  by_cases h30 : s < 30 <;> by_cases h70 : s < 70 <;>
    simp [h30, h70] <;> omega

end TrustCar

namespace TrustCar

/-- Claim C2: every assessment the scoring engine produces has an
integer score in [0,100] equal to the sum of the triggered signal
weights capped at 100; the level is `low` exactly below 30, `medium`
exactly in [30,70), `high` exactly at or above 70; `autoFlag` holds
exactly at or above 70; and the level derivation sends 69 to `medium`
with no auto-flag and 70 to `high` with auto-flag. -/
theorem c2_assessment_score_level_autoflag (insp : Inspection) (uploads : List Upload)
    (vinRecord : Option VinRecord) (now : Int) :
    (assessmentOf insp uploads vinRecord now).score =
        min (fraudScoreRaw insp uploads vinRecord) 100 ∧
    (assessmentOf insp uploads vinRecord now).score ≤ 100 ∧
    ((assessmentOf insp uploads vinRecord now).level = "low" ↔
        (assessmentOf insp uploads vinRecord now).score < 30) ∧
    ((assessmentOf insp uploads vinRecord now).level = "medium" ↔
        30 ≤ (assessmentOf insp uploads vinRecord now).score ∧
        (assessmentOf insp uploads vinRecord now).score < 70) ∧
    ((assessmentOf insp uploads vinRecord now).level = "high" ↔
        70 ≤ (assessmentOf insp uploads vinRecord now).score) ∧
    ((assessmentOf insp uploads vinRecord now).autoFlag = true ↔
        70 ≤ (assessmentOf insp uploads vinRecord now).score) ∧
    levelOf 69 = "medium" ∧ autoFlagOf 69 = false ∧
    levelOf 70 = "high" ∧ autoFlagOf 70 = true := by
  have hsc : (assessmentOf insp uploads vinRecord now).score =
      min (fraudScoreRaw insp uploads vinRecord) 100 := rfl
  have hlv : (assessmentOf insp uploads vinRecord now).level =
      levelOf (assessmentOf insp uploads vinRecord now).score := rfl
  have haf : (assessmentOf insp uploads vinRecord now).autoFlag =
      autoFlagOf (assessmentOf insp uploads vinRecord now).score := rfl
  obtain ⟨h1, h2, h3⟩ := levelOf_band (assessmentOf insp uploads vinRecord now).score
  refine ⟨hsc, ?_, ?_, ?_, ?_, ?_, by decide, by decide, by decide, by decide⟩
  · rw [hsc]; exact Nat.min_le_right _ _
  · rw [hlv]; exact h1
  · rw [hlv]; exact h2
  · rw [hlv]; exact h3
  · rw [haf]; unfold autoFlagOf; simp

/-- Claim C5: the assessment is a deterministic function of the
inspection, its uploads and its history record in every field except
`timestamp`, which records the wall-clock instant passed to the engine;
two runs on unchanged inputs agree everywhere else, and agree everywhere
exactly when their clock readings coincide. -/
theorem c5_determinism_except_timestamp (insp : Inspection) (uploads : List Upload)
    (vinRecord : Option VinRecord) (now1 now2 : Int) :
    (assessmentOf insp uploads vinRecord now1).inspectionId =
        (assessmentOf insp uploads vinRecord now2).inspectionId ∧
    (assessmentOf insp uploads vinRecord now1).vin =
        (assessmentOf insp uploads vinRecord now2).vin ∧
    (assessmentOf insp uploads vinRecord now1).score =
        (assessmentOf insp uploads vinRecord now2).score ∧
    (assessmentOf insp uploads vinRecord now1).level =
        (assessmentOf insp uploads vinRecord now2).level ∧
    (assessmentOf insp uploads vinRecord now1).autoFlag =
        (assessmentOf insp uploads vinRecord now2).autoFlag ∧
    (assessmentOf insp uploads vinRecord now1).flags =
        (assessmentOf insp uploads vinRecord now2).flags ∧
    (assessmentOf insp uploads vinRecord now1).timestamp = now1 ∧
    (assessmentOf insp uploads vinRecord now2).timestamp = now2 ∧
    (now1 = now2 →
      assessmentOf insp uploads vinRecord now1 = assessmentOf insp uploads vinRecord now2) := by
  refine ⟨rfl, rfl, rfl, rfl, rfl, rfl, rfl, rfl, ?_⟩
  intro h; rw [h]

/-- The inspection used by the C5 counterexample. -/
def c5Insp : Inspection :=
  { id := "insp-c5", tokenHash := "h", tokenExpiry := 100, status := "submitted" }

/-- The store used by the C5 counterexample. -/
def c5Store : Store := { inspections := [c5Insp], uploads := [], vinRecords := [] }

/-- Claim C5 counterexample: two runs of the fraud-score endpoint on the
same unchanged store, at wall-clock instants 0 and 1, return assessments
that are not byte-identical — they differ in the `timestamp` field. -/
theorem c5_counterexample :
    (fraudScore c5Store "insp-c5" 0).map Prod.fst ≠
      (fraudScore c5Store "insp-c5" 1).map Prod.fst ∧
    (fraudScore c5Store "insp-c5" 0).map (fun p => p.1.timestamp) = some 0 ∧
    (fraudScore c5Store "insp-c5" 1).map (fun p => p.1.timestamp) = some 1 := by
  refine ⟨?_, by decide, by decide⟩
  decide

end TrustCar

namespace TrustCar

/-- The inspection used by the C1 counterexample: the stored hash is
the digest of the token `good`, and the expiry instant 100 is in the
past at time 200. -/
def c1Insp : Inspection :=
  { id := "insp-c1", tokenHash := hashToken "good", tokenExpiry := 100, status := "pending" }

/-- The store used by the C1 counterexample. -/
def c1Store : Store := { inspections := [c1Insp], uploads := [], vinRecords := [] }

/-- Claim C1 counterexample: at time 200 — after the expiry instant 100
— the token `bad`, whose hash does not match, is rejected as
`invalidToken` and not as `tokenExpired`, at the validate endpoint and
at upload intake alike: expiry does not dominate hash correctness,
because the hash comparison runs first. -/
theorem c1_counterexample :
    c1Insp.tokenExpiry < 200 ∧
    validateToken c1Store "insp-c1" (some "bad") 200 = .invalidToken ∧
    validateToken c1Store "insp-c1" (some "bad") 200 ≠ .tokenExpired ∧
    (intakeUpload c1Store "insp-c1" (some "bad") none none "u" 200 .readError false
        .failed 0).1 = .invalidToken := by
  exact ⟨by decide, by decide, by decide, by decide⟩

/-- Claim C1 (amended): token validation fails closed at both the
validate endpoint and upload intake, but the hash comparison precedes
the expiry check: a wrong hash yields `invalidToken` even when the
token is also expired; `tokenExpired` is returned exactly when the hash
matches and `now > tokenExpiry`; success requires hash equality and
non-expiry; a missing or empty token is always rejected. -/
theorem c1_token_validation_fail_closed (data : Store) (id : String) (now : Int)
    (insp : Inspection) (t : String)
    (hfind : data.inspections.find? (fun x => x.id = id) = some insp) (ht : t ≠ "") :
    (hashToken t ≠ insp.tokenHash →
      validateToken data id (some t) now = .invalidToken ∧
      ∀ file body newId analysis cfg det dt,
        (intakeUpload data id (some t) file body newId now analysis cfg det dt).1 =
          .invalidToken) ∧
    (hashToken t = insp.tokenHash → now > insp.tokenExpiry →
      validateToken data id (some t) now = .tokenExpired ∧
      ∀ file body newId analysis cfg det dt,
        (intakeUpload data id (some t) file body newId now analysis cfg det dt).1 =
          .tokenExpired) ∧
    (hashToken t = insp.tokenHash → now ≤ insp.tokenExpiry →
      validateToken data id (some t) now = .ok insp.id insp.orderId) ∧
    validateToken data id none now = .missingToken ∧
    validateToken data id (some "") now = .missingToken := by
  refine ⟨?_, ?_, ?_, ?_, ?_⟩
  · intro hmm
    refine ⟨by simp [validateToken, hfind, ht, hmm], ?_⟩
    intro file body newId analysis cfg det dt
    simp [intakeUpload, hfind, ht, hmm]
  · intro hh hexp
    refine ⟨by simp [validateToken, hfind, ht, hh, hexp], ?_⟩
    intro file body newId analysis cfg det dt
    simp [intakeUpload, hfind, ht, hh, hexp]
  · intro hh hexp
    simp [validateToken, hfind, ht, hh, not_lt.mpr hexp]
  · simp [validateToken, hfind]
  · simp [validateToken, hfind]

/-- The inspection used by the C1 witness: its stored hash is the
digest of the token `tok` and its expiry 100 has not passed at time 50. -/
def c1wInsp : Inspection :=
  { id := "insp-c1w", tokenHash := hashToken "tok", tokenExpiry := 100, status := "pending" }

/-- The store used by the C1 witness. -/
def c1wStore : Store := { inspections := [c1wInsp], uploads := [], vinRecords := [] }

/-- Witness for C1: at time 50, the matching token `tok` validates
successfully against the concrete store. -/
theorem c1_token_validation_fail_closed_witness :
    validateToken c1wStore "insp-c1w" (some "tok") 50 = .ok "insp-c1w" none :=
  (c1_token_validation_fail_closed c1wStore "insp-c1w" 50 c1wInsp "tok" rfl
      (by decide)).2.2.1 rfl (by decide)

end TrustCar

namespace TrustCar

/-- The odometer-category upload shared by the C3 scenario and
counterexample. -/
def c3Upload : Upload :=
  { id := "up-c3", inspectionId := "insp-c3", filename := "odo.jpg",
    originalname := "odo.jpg", mimetype := "image/jpeg", size := some 1000,
    path := "/uploads/odo.jpg", checkItem := some "odometer",
    lat := none, lng := none, accuracy := none, uploadedAt := 10 }

/-- A cached history record whose latest odometer reading is 52,000. -/
def c3Rec : VinRecord :=
  { vin := "1FTFW1ET5DFC10312",
    odometer := some { lastReading := some { mileage := some 52000 } } }

/-- An inspection declaring mileage 47,000 — exactly 5,000 below the
history reading of 52,000. -/
def c3Insp : Inspection :=
  { id := "insp-c3", tokenHash := "h", tokenExpiry := 100, status := "submitted",
    vin := some "1FTFW1ET5DFC10312", odometerReading := some 47000 }

/-- Claim C3 counterexample: with declared mileage exactly 5,000 units
below the history reading (47,000 against 52,000) and an odometer
upload present, signal 2 does not trigger: the engine requires a
strictly greater gap (`declared < history - 5000`), so the score is 0
and no flag is appended, where the claim's "at least 5,000" would
demand +30. -/
theorem c3_counterexample :
    historyMileage (some c3Rec) - declaredMileage c3Insp = 5000 ∧
    trigger2 c3Insp [c3Upload] (some c3Rec) = false ∧
    (assessmentOf c3Insp [c3Upload] (some c3Rec) 0).score = 0 ∧
    (assessmentOf c3Insp [c3Upload] (some c3Rec) 0).flags = [] := by
  exact ⟨by decide, by decide, by decide, by decide⟩

/-- The scenario-C inspection: declared mileage 45,000. -/
def c3sInsp : Inspection := { c3Insp with odometerReading := some 45000 }

/-- Claim C3 (amended): signal 2 adds +30 and appends exactly one flag
precisely when an odometer-category upload exists, the history record
has a last reading, and the declared mileage is more than 5,000 units
below it (a gap of exactly 5,000 does not trigger); each triggered
signal contributes exactly one flag; and the 45,000-versus-52,000
scenario scores 30 with level `medium` and the single odometer flag. -/
theorem c3_odometer_signal (insp : Inspection) (uploads : List Upload)
    (vinRecord : Option VinRecord) :
    (trigger2 insp uploads vinRecord = true ↔
      ((∃ u ∈ uploads, u.checkItem = some "odometer") ∧
       (∃ lr, historyLastReading vinRecord = some lr) ∧
       declaredMileage insp < historyMileage vinRecord - 5000)) ∧
    ((fraudFlags insp uploads vinRecord).length =
      (if trigger1 insp uploads then 1 else 0) +
      (if trigger2 insp uploads vinRecord then 1 else 0) +
      (if trigger3 insp uploads then 1 else 0) +
      (if trigger4 insp uploads then 1 else 0) +
      (if trigger5 vinRecord then 1 else 0) +
      (if trigger6 uploads then 1 else 0)) ∧
    (assessmentOf c3sInsp [c3Upload] (some c3Rec) 0).score = 30 ∧
    (assessmentOf c3sInsp [c3Upload] (some c3Rec) 0).level = "medium" ∧
    (assessmentOf c3sInsp [c3Upload] (some c3Rec) 0).flags =
      ["Odometer rollback suspected: Declared 45000 mi < History 52000 mi"] := by
  refine ⟨?_, ?_, by decide, by decide, by decide⟩
  · simp only [trigger2, Bool.and_eq_true, List.find?_isSome, decide_eq_true_iff, and_assoc]
    simp [Option.isSome_iff_exists]
  · simp only [fraudFlags, List.length_append]
    split_ifs <;> simp

end TrustCar

namespace TrustCar

/-- A successful intake call (inspection found, non-empty token with a
matching hash, unexpired, file present) returns exactly the entry built
by `intakeEntry`, appends that same entry to the store, and rewrites
only the found inspection (pending becoming submitted). -/
theorem intakeUpload_success (data : Store) (id : String) (insp : Inspection) (t : String)
    (f : FileInfo) (body : Option UploadBody) (newId : String) (now : Int)
    (analysis : AnalysisOutcome) (cfg : Bool) (det : DetectOutcome) (dt : Int)
    (hfind : data.inspections.find? (fun x => x.id = id) = some insp) (ht : t ≠ "")
    (hh : hashToken t = insp.tokenHash) (hexp : now ≤ insp.tokenExpiry) :
    intakeUpload data id (some t) (some f) body newId now analysis cfg det dt =
      (.ok (intakeEntry id f body newId now analysis cfg det dt),
       { data with
           inspections := replaceFirst (fun x => x.id = id)
             (if insp.status = "pending" then { insp with status := "submitted" } else insp)
             data.inspections,
           uploads := data.uploads ++ [intakeEntry id f body newId now analysis cfg det dt] }) := by
  simp [intakeUpload, hfind, ht, hh, not_lt.mpr hexp]

/-- Enrichment (steps 6–7) touches only the `exif` and `quality`
fields of the entry. -/
theorem enrichEntry_preserves (analysis : AnalysisOutcome) (e : Upload) :
    (enrichEntry analysis e).checkItem = e.checkItem ∧
    (enrichEntry analysis e).detection = e.detection ∧
    (enrichEntry analysis e).lat = e.lat ∧
    (enrichEntry analysis e).lng = e.lng ∧
    (enrichEntry analysis e).accuracy = e.accuracy ∧
    (enrichEntry analysis e).id = e.id ∧
    (enrichEntry analysis e).inspectionId = e.inspectionId := by
  cases analysis with
  | readError => exact ⟨rfl, rfl, rfl, rfl, rfl, rfl, rfl⟩
  | ok exifOut qualityOut =>
    cases exifOut <;> cases qualityOut <;> exact ⟨rfl, rfl, rfl, rfl, rfl, rfl, rfl⟩

/-- A detection call that threw, or returned no predictions field,
leaves the entry untouched. -/
theorem attachDetection_noop (cfg : Bool) (dt : Int) (e : Upload) :
    attachDetection cfg .failed dt e = e ∧ attachDetection cfg .noPredictions dt e = e := by
  constructor <;> (unfold attachDetection; split <;> rfl)

/-- The inspection used by the C4 counterexample (Roboflow configured,
valid token, checklist category declared). -/
def c4Insp : Inspection :=
  { id := "insp-c4", tokenHash := hashToken "tok4", tokenExpiry := 1000, status := "pending" }

/-- The store used by the C4 counterexample. -/
def c4Store : Store := { inspections := [c4Insp], uploads := [], vinRecords := [] }

/-- The file used by the C4 counterexample. -/
def c4File : FileInfo :=
  { filename := "dmg.jpg", originalname := "dmg.jpg", mimetype := "image/jpeg", size := 5 }

/-- The body used by the C4 counterexample. -/
def c4Body : UploadBody := { checkItem := some "exterior_front" }

/-- Claim C4 counterexample: when the awaited detection call succeeds,
the upload record returned to the caller already carries the detection
result — the response does not reflect only steps 4–8, and the handler
waited on step 9 before responding. -/
theorem c4_counterexample :
    (intakeFile (intakeUpload c4Store "insp-c4" (some "tok4") (some c4File) (some c4Body)
        "up-c4" 10 .readError true (.got [⟨"damage", 1⟩] (some "img")) 11).1).map
      (fun e => e.detection) =
      some (.val ⟨11, [⟨"damage", 1⟩], some "img"⟩) ∧
    (JField.val (⟨11, [⟨"damage", 1⟩], some "img"⟩ : Detection) : JField Detection) ≠
      .absent := by
  exact ⟨by decide, by decide⟩

/-- Claim C4 (amended): the detection call is awaited inside the
request handler.  A failed call or one without predictions never fails
the request: intake still succeeds with `detection` unset.  But a
successful call attaches its result to the entry before the response,
so the record returned to the caller — which is the very record
persisted — already reflects step 9, not only steps 4–8. -/
theorem c4_detection_before_response (data : Store) (id : String) (insp : Inspection)
    (t : String) (f : FileInfo) (body : Option UploadBody) (newId : String) (now : Int)
    (analysis : AnalysisOutcome) (cfg : Bool) (det : DetectOutcome) (dt : Int)
    (hfind : data.inspections.find? (fun x => x.id = id) = some insp) (ht : t ≠ "")
    (hh : hashToken t = insp.tokenHash) (hexp : now ≤ insp.tokenExpiry) :
    (intakeUpload data id (some t) (some f) body newId now analysis cfg det dt).1 =
      .ok (intakeEntry id f body newId now analysis cfg det dt) ∧
    (intakeUpload data id (some t) (some f) body newId now analysis cfg det dt).2.uploads =
      data.uploads ++ [intakeEntry id f body newId now analysis cfg det dt] ∧
    (det = .failed →
      (intakeEntry id f body newId now analysis cfg det dt).detection = .absent) ∧
    (det = .noPredictions →
      (intakeEntry id f body newId now analysis cfg det dt).detection = .absent) ∧
    (∀ preds img, det = .got preds img → cfg = true → (coerceCheckItem body).isSome →
      (intakeEntry id f body newId now analysis cfg det dt).detection =
        .val ⟨dt, preds, img⟩) := by
  have hs := intakeUpload_success data id insp t f body newId now analysis cfg det dt
    hfind ht hh hexp
  refine ⟨by rw [hs], by rw [hs], ?_, ?_, ?_⟩
  · rintro rfl
    unfold intakeEntry
    rw [(attachDetection_noop cfg dt _).1]
    rw [(enrichEntry_preserves analysis _).2.1]
    rfl
  · rintro rfl
    unfold intakeEntry
    rw [(attachDetection_noop cfg dt _).2]
    rw [(enrichEntry_preserves analysis _).2.1]
    rfl
  · rintro preds img rfl rfl hchk
    have hc : (enrichEntry analysis (intakeEntryBase id f body newId now)).checkItem =
        coerceCheckItem body := (enrichEntry_preserves analysis _).1
    unfold intakeEntry attachDetection
    rw [hc]
    simp [hchk]

end TrustCar

namespace TrustCar

/-- The inspection used by the C4 witness. -/
def c4wInsp : Inspection :=
  { id := "insp-c4w", tokenHash := hashToken "tw", tokenExpiry := 1000, status := "pending" }

/-- The store used by the C4 witness. -/
def c4wStore : Store := { inspections := [c4wInsp], uploads := [], vinRecords := [] }

/-- The file used by the C4 witness. -/
def c4wFile : FileInfo :=
  { filename := "w.jpg", originalname := "w.jpg", mimetype := "image/jpeg", size := 1 }

/-- Witness for C4: on the concrete store, a detection call that threw
still produces a successful intake whose entry has no detection. -/
theorem c4_detection_before_response_witness :
    (intakeUpload c4wStore "insp-c4w" (some "tw") (some c4wFile) none "up" 5 .readError
        true .failed 6).1 =
      .ok (intakeEntry "insp-c4w" c4wFile none "up" 5 .readError true .failed 6) ∧
    (intakeEntry "insp-c4w" c4wFile none "up" 5 .readError true .failed 6).detection =
      .absent :=
  ⟨(c4_detection_before_response c4wStore "insp-c4w" c4wInsp "tw" c4wFile none "up" 5
      .readError true .failed 6 rfl (by decide) rfl (by decide)).1,
   (c4_detection_before_response c4wStore "insp-c4w" c4wInsp "tw" c4wFile none "up" 5
      .readError true .failed 6 rfl (by decide) rfl (by decide)).2.2.1 rfl⟩

end TrustCar

namespace TrustCar

/-- The detection merge (step 9) touches only the `detection` field. -/
theorem attachDetection_preserves (cfg : Bool) (det : DetectOutcome) (dt : Int) (e : Upload) :
    (attachDetection cfg det dt e).exif = e.exif ∧
    (attachDetection cfg det dt e).quality = e.quality ∧
    (attachDetection cfg det dt e).checkItem = e.checkItem ∧
    (attachDetection cfg det dt e).lat = e.lat ∧
    (attachDetection cfg det dt e).lng = e.lng ∧
    (attachDetection cfg det dt e).accuracy = e.accuracy := by
  unfold attachDetection
  split
  · cases det <;> exact ⟨rfl, rfl, rfl, rfl, rfl, rfl⟩
  · exact ⟨rfl, rfl, rfl, rfl, rfl, rfl⟩

/-- Claim C6: when both the EXIF extraction and the quality analysis
fail (as they do on a byte payload that is not a valid image), intake
still succeeds: the upload record is created and appended, and its
`exif` and `quality` fields are both set to an explicit null — present
with an absent value, not omitted — with neither failure escaping to
fail the request. -/
theorem c6_invalid_image_upload_created (data : Store) (id : String) (insp : Inspection)
    (t : String) (f : FileInfo) (body : Option UploadBody) (newId : String) (now : Int)
    (cfg : Bool) (det : DetectOutcome) (dt : Int)
    (hfind : data.inspections.find? (fun x => x.id = id) = some insp) (ht : t ≠ "")
    (hh : hashToken t = insp.tokenHash) (hexp : now ≤ insp.tokenExpiry) :
    (intakeUpload data id (some t) (some f) body newId now (.ok .errored .errored)
        cfg det dt).1 =
      .ok (intakeEntry id f body newId now (.ok .errored .errored) cfg det dt) ∧
    (intakeEntry id f body newId now (.ok .errored .errored) cfg det dt).exif = .null ∧
    (intakeEntry id f body newId now (.ok .errored .errored) cfg det dt).quality = .null ∧
    (intakeUpload data id (some t) (some f) body newId now (.ok .errored .errored)
        cfg det dt).2.uploads =
      data.uploads ++ [intakeEntry id f body newId now (.ok .errored .errored) cfg det dt] := by
  have hs := intakeUpload_success data id insp t f body newId now (.ok .errored .errored)
    cfg det dt hfind ht hh hexp
  refine ⟨by rw [hs], ?_, ?_, by rw [hs]⟩
  · unfold intakeEntry
    rw [(attachDetection_preserves cfg det dt _).1]
    rfl
  · unfold intakeEntry
    rw [(attachDetection_preserves cfg det dt _).2.1]
    rfl

/-- The inspection used by the C6 witness. -/
def c6wInsp : Inspection :=
  { id := "insp-c6w", tokenHash := hashToken "t6", tokenExpiry := 500, status := "pending" }

/-- The store used by the C6 witness. -/
def c6wStore : Store := { inspections := [c6wInsp], uploads := [], vinRecords := [] }

/-- The (non-image) file used by the C6 witness. -/
def c6wFile : FileInfo :=
  { filename := "not-an-image.bin", originalname := "not-an-image.bin",
    mimetype := "application/octet-stream", size := 12 }

/-- Witness for C6: a concrete intake whose two analyses both failed
still returns a created upload with explicit nulls. -/
theorem c6_invalid_image_upload_created_witness :
    (intakeUpload c6wStore "insp-c6w" (some "t6") (some c6wFile) none "up6" 7
        (.ok .errored .errored) false .failed 0).1 =
      .ok (intakeEntry "insp-c6w" c6wFile none "up6" 7 (.ok .errored .errored) false
        .failed 0) ∧
    (intakeEntry "insp-c6w" c6wFile none "up6" 7 (.ok .errored .errored) false
      .failed 0).exif = .null :=
  ⟨(c6_invalid_image_upload_created c6wStore "insp-c6w" c6wInsp "t6" c6wFile none "up6" 7
      false .failed 0 rfl (by decide) rfl (by decide)).1,
   (c6_invalid_image_upload_created c6wStore "insp-c6w" c6wInsp "t6" c6wFile none "up6" 7
      false .failed 0 rfl (by decide) rfl (by decide)).2.1⟩

end TrustCar

namespace TrustCar

/-- The pending inspection used by the C7 two-upload scenario. -/
def c7Insp : Inspection :=
  { id := "insp-c7", tokenHash := hashToken "t7", tokenExpiry := 900, status := "pending" }

/-- The store used by the C7 two-upload scenario. -/
def c7Store : Store := { inspections := [c7Insp], uploads := [], vinRecords := [] }

/-- The file used by the C7 two-upload scenario. -/
def c7File : FileInfo :=
  { filename := "a.jpg", originalname := "a.jpg", mimetype := "image/jpeg", size := 3 }

/-- The store after the first upload of the C7 scenario. -/
def c7Store1 : Store :=
  (intakeUpload c7Store "insp-c7" (some "t7") (some c7File) none "up-c7a" 10 .readError
    false .failed 0).2

/-- Claim C7: a successful upload moves a `pending` inspection to
`submitted` and otherwise leaves the status exactly as it was — the
only status write intake (multipart or S3-notify) performs; in the
concrete scenario, a first upload to a pending inspection yields
`submitted` and a second upload leaves it at `submitted`. -/
theorem c7_first_upload_transitions (data : Store) (id : String) (insp : Inspection)
    (t : String) (f : FileInfo) (body : Option UploadBody) (newId : String) (now : Int)
    (analysis : AnalysisOutcome) (cfg : Bool) (det : DetectOutcome) (dt : Int)
    (hfind : data.inspections.find? (fun x => x.id = id) = some insp) (ht : t ≠ "")
    (hh : hashToken t = insp.tokenHash) (hexp : now ≤ insp.tokenExpiry) :
    ((intakeUpload data id (some t) (some f) body newId now analysis cfg det dt).2).inspections.find?
        (fun x => x.id = id) =
      some (if insp.status = "pending" then { insp with status := "submitted" } else insp) ∧
    (insp.status = "pending" →
      ((intakeUpload data id (some t) (some f) body newId now analysis cfg det
          dt).2).inspections.find? (fun x => x.id = id) =
        some { insp with status := "submitted" }) ∧
    (insp.status ≠ "pending" →
      ((intakeUpload data id (some t) (some f) body newId now analysis cfg det
          dt).2).inspections.find? (fun x => x.id = id) = some insp) ∧
    (∀ (nb : NotifyBody) (bucket region nid : String),
      strTruthy nb.key → strTruthy nb.filename →
      ((notifyUpload data id (some t) (some nb) bucket region nid now).2).inspections.find?
          (fun x => x.id = id) =
        some (if insp.status = "pending" then { insp with status := "submitted" } else insp)) ∧
    ((c7Store1.inspections.find? (fun x => x.id = "insp-c7")).map (fun i => i.status) =
      some "submitted") ∧
    (((intakeUpload c7Store1 "insp-c7" (some "t7") (some c7File) none "up-c7b" 20 .readError
        false .failed 0).2).inspections.find? (fun x => x.id = "insp-c7")).map
      (fun i => i.status) = some "submitted" := by
  have hid : insp.id = id := by simpa using List.find?_some hfind
  have hmain : ∀ (l1 : List Inspection),
      l1 = replaceFirst (fun x => x.id = id)
        (if insp.status = "pending" then { insp with status := "submitted" } else insp)
        data.inspections →
      l1.find? (fun x => x.id = id) =
        some (if insp.status = "pending" then { insp with status := "submitted" } else insp) := by
    intro l1 hl
    rw [hl]
    apply find?_replaceFirst _ _ _ _ hfind
    split <;> simp [hid]
  have hs := intakeUpload_success data id insp t f body newId now analysis cfg det dt
    hfind ht hh hexp
  have h1 : ((intakeUpload data id (some t) (some f) body newId now analysis cfg det
      dt).2).inspections.find? (fun x => x.id = id) =
      some (if insp.status = "pending" then { insp with status := "submitted" } else insp) := by
    rw [hs]
    exact hmain _ rfl
  refine ⟨h1, ?_, ?_, ?_, by decide, by decide⟩
  · intro hp
    rw [h1, if_pos hp]
  · intro hp
    rw [h1, if_neg hp]
  · intro nb bucket region nid hk hf2
    have hn : (notifyUpload data id (some t) (some nb) bucket region nid now).2.inspections =
        replaceFirst (fun x => x.id = id)
          (if insp.status = "pending" then { insp with status := "submitted" } else insp)
          data.inspections := by
      simp [notifyUpload, hk, hf2, hfind, ht, hh, not_lt.mpr hexp]
    rw [hn]
    exact hmain _ rfl

/-- Witness for C7: the concrete first upload of the scenario moves the
pending inspection to `submitted`. -/
theorem c7_first_upload_transitions_witness :
    (c7Store1.inspections.find? (fun x => x.id = "insp-c7")).map (fun i => i.status) =
      some "submitted" :=
  (c7_first_upload_transitions c7Store "insp-c7" c7Insp "t7" c7File none "up-c7a" 10
    .readError false .failed 0 rfl (by decide) rfl (by decide)).2.2.2.2.1

end TrustCar

namespace TrustCar

/-- The submitted inspection used by the C8 counterexample. -/
def c8Insp : Inspection :=
  { id := "insp-c8", tokenHash := "h", tokenExpiry := 100, status := "submitted" }

/-- The store used by the C8 counterexample. -/
def c8Store : Store := { inspections := [c8Insp], uploads := [], vinRecords := [] }

/-- Claim C8 counterexample: the administrative mark-complete action
writes the status string `complete`, which is not one of the four
specified enumeration values `pending | submitted | flagged |
completed` — so not every operation preserves the status enumeration. -/
theorem c8_counterexample :
    (markComplete c8Store "insp-c8").map
        (fun d => (d.inspections.find? (fun x => x.id = "insp-c8")).map (fun i => i.status)) =
      some (some "complete") ∧
    ("complete" ∉ ["pending", "submitted", "flagged", "completed"]) := by
  exact ⟨by decide, by decide⟩

/-- Claim C8 (amended): creation writes `pending`; intake and notify
only ever move `pending` to `submitted`; approve-report writes
`completed`; but mark-complete writes `complete`, a fifth value outside
the specified enumeration, and the admin PUT update endpoint copies an
arbitrary caller-supplied status string onto the inspection unvalidated.
Among the fixed-value transitions, `completed` is written only by the
approve-report action. -/
theorem c8_status_values :
    (∀ (data : Store) (newId token : String) (orderId buyerEmail sellerPhone sellerEmail :
        Option String) (price : Option Int) (notes : Option String) (now : Int),
      (createInspection data newId token orderId buyerEmail sellerPhone sellerEmail price
        notes now).1.status = "pending") ∧
    (∀ (data : Store) (id : String) (insp : Inspection),
      data.inspections.find? (fun x => x.id = id) = some insp →
      (∃ d, markComplete data id = some d ∧
        d.inspections.find? (fun x => x.id = id) = some { insp with status := "complete" }) ∧
      (∀ rep : AiReport, insp.aiReport = some rep → ∀ reviewer now,
        (approveReport data id reviewer now).1 = .ok ∧
        ((approveReport data id reviewer now).2.inspections.find? (fun x => x.id = id)).map
          (fun i => i.status) = some "completed") ∧
      (∀ (payload : PutPayload) (s : String) (now : Int), payload.status = some s →
        ∃ i d, putUpdate data id payload now = some (i, d) ∧ i.status = s ∧
          d.inspections.find? (fun x => x.id = id) = some i)) ∧
    ("complete" ∉ ["pending", "submitted", "flagged", "completed"]) ∧
    ("complete" ≠ "completed") := by
  refine ⟨fun _ _ _ _ _ _ _ _ _ _ => rfl, ?_, by decide, by decide⟩
  intro data id insp hfind
  have hid : insp.id = id := by simpa using List.find?_some hfind
  refine ⟨?_, ?_, ?_⟩
  · simp only [markComplete, hfind]
    refine ⟨_, rfl, ?_⟩
    exact find?_replaceFirst _ _ _ _ hfind (by simp [hid])
  · intro rep hrep reviewer now
    refine ⟨by simp [approveReport, hfind, hrep], ?_⟩
    simp only [approveReport, hfind, hrep]
    rw [find?_replaceFirst _ _ _ _ hfind (by simp [hid])]
    rfl
  · intro payload s now hs
    simp only [putUpdate, hfind]
    refine ⟨_, _, rfl, by simp [hs], ?_⟩
    exact find?_replaceFirst _ _ _ _ hfind (by simp [hid])

/-- The inspection used by the C8 witness (it has an AI report, so
approve-report succeeds). -/
def c8wInsp : Inspection :=
  { id := "insp-c8w", tokenHash := "h", tokenExpiry := 100, status := "submitted",
    aiReport := some {} }

/-- The store used by the C8 witness. -/
def c8wStore : Store := { inspections := [c8wInsp], uploads := [], vinRecords := [] }

/-- Witness for C8: on the concrete store, approve-report succeeds and
writes `completed`. -/
theorem c8_status_values_witness :
    (approveReport c8wStore "insp-c8w" none 9).1 = .ok ∧
    ((approveReport c8wStore "insp-c8w" none 9).2.inspections.find?
        (fun x => x.id = "insp-c8w")).map (fun i => i.status) = some "completed" :=
  (c8_status_values.2.1 c8wStore "insp-c8w" c8wInsp rfl).2.1 {} rfl none 9

end TrustCar

namespace TrustCar

/-- `Char.ofNat` of a valid code point decodes back to the same value. -/
theorem charOfNat_toNat {n : Nat} (h : Nat.isValidChar n) : (Char.ofNat n).toNat = n := by
  unfold Char.ofNat
  rw [dif_pos h]
  unfold Char.ofNatAux Char.toNat
  simp [UInt32.toNat, UInt32.ofNatCore]

/-- Upper-casing a character never yields an ASCII lower-case letter. -/
theorem isAsciiLower_jsToUpperChar (c : Char) : isAsciiLower (jsToUpperChar c) = false := by
  unfold jsToUpperChar isAsciiLower
  split
  · next h =>
    obtain ⟨h1, h2⟩ := h
    have hv : Nat.isValidChar (c.toNat - 32) := Or.inl (by omega)
    rw [charOfNat_toNat hv]
    simp only [Bool.and_eq_false_iff, decide_eq_false_iff_not]
    omega
  · next h =>
    have hd : ¬ (97 ≤ c.toNat) ∨ ¬ (c.toNat ≤ 122) := by
      by_cases h1 : 97 ≤ c.toNat
      · exact Or.inr (fun h2 => h ⟨h1, h2⟩)
      · exact Or.inl h1
    rcases hd with h1 | h1 <;> simp [h1]

/-- A string containing an ASCII lower-case letter is never the result
of upper-casing. -/
theorem ne_jsToUpperCase_of_lower {v : String} {c : Char} (hc : c ∈ v.data)
    (hl : isAsciiLower c = true) (t : String) : v ≠ jsToUpperCase t := by
  intro hv
  subst hv
  have hm : ∃ c0 ∈ t.data, jsToUpperChar c0 = c := by
    simpa [jsToUpperCase] using hc
  obtain ⟨c0, _, hc0⟩ := hm
  rw [← hc0, isAsciiLower_jsToUpperChar] at hl
  exact Bool.false_ne_true hl

/-- Claim C9: the inspection-to-history link is an exact case-sensitive
VIN string match, and saved VIN records are stored upper-cased; hence
for an inspection whose declared VIN contains an ASCII lower-case
letter the lookup finds nothing, signals 2 and 5 cannot trigger, and
the whole assessment is the same as with no history record at all —
whatever the stored records say.  The final conjunct shows the save
endpoint preserves the stored-upper-cased invariant. -/
theorem c9_vin_case_sensitive_lookup (records : List VinRecord) (insp : Inspection)
    (uploads : List Upload) (now : Int) (v : String) (c : Char)
    (hrec : ∀ r ∈ records, ∃ t, r.vin = jsToUpperCase t)
    (hvin : insp.vin = some v) (hc : c ∈ v.data) (hl : isAsciiLower c = true) :
    findVinRecord records insp.vin = none ∧
    trigger2 insp uploads (findVinRecord records insp.vin) = false ∧
    trigger5 (findVinRecord records insp.vin) = false ∧
    assessmentOf insp uploads (findVinRecord records insp.vin) now =
      assessmentOf insp uploads none now ∧
    (∀ (data : Store) (newId : String) (vin : Option String) (ts : Option Int) (now2 : Int)
        (store' : Store), saveVinRecord data newId vin ts now2 = some store' →
      (∀ r ∈ data.vinRecords, ∃ t, r.vin = jsToUpperCase t) →
      ∀ r ∈ store'.vinRecords, ∃ t, r.vin = jsToUpperCase t) := by
  have hnone : findVinRecord records insp.vin = none := by
    rw [hvin]
    unfold findVinRecord
    rw [List.find?_eq_none]
    intro r hr
    simp only [decide_eq_true_iff]
    obtain ⟨t, ht⟩ := hrec r hr
    intro hEq
    exact ne_jsToUpperCase_of_lower hc hl t (hEq ▸ ht)
  refine ⟨hnone, ?_, ?_, by rw [hnone], ?_⟩
  · rw [hnone]
    simp [trigger2, historyLastReading]
  · rw [hnone]
    rfl
  · intro data newId vin ts now2 store' hsave hold r hr
    unfold saveVinRecord at hsave
    split at hsave
    · exact absurd hsave (by simp)
    · rw [Option.some_inj] at hsave
      subst hsave
      simp only [List.mem_append, List.mem_singleton] at hr
      rcases hr with hr | hr
      · exact hold r hr
      · subst hr
        exact ⟨vin.getD "", rfl⟩

/-- The upper-cased record used by the C9 witness. -/
def c9wRec : VinRecord := { vin := "ABC123" }

/-- The inspection used by the C9 witness; its VIN starts with a
lower-case letter. -/
def c9wInsp : Inspection :=
  { id := "insp-c9w", tokenHash := "h", tokenExpiry := 0, status := "pending",
    vin := some "aBC123" }

/-- Witness for C9: the concrete lookup finds nothing and signal 5
cannot trigger. -/
theorem c9_vin_case_sensitive_lookup_witness :
    findVinRecord [c9wRec] c9wInsp.vin = none ∧
    trigger5 (findVinRecord [c9wRec] c9wInsp.vin) = false :=
  ⟨(c9_vin_case_sensitive_lookup [c9wRec] c9wInsp [] 0 "aBC123" 'a'
      (fun r hr => by simp at hr; subst hr; exact ⟨"abc123", by decide⟩)
      rfl (by decide) (by decide)).1,
   (c9_vin_case_sensitive_lookup [c9wRec] c9wInsp [] 0 "aBC123" 'a'
      (fun r hr => by simp at hr; subst hr; exact ⟨"abc123", by decide⟩)
      rfl (by decide) (by decide)).2.2.1⟩

end TrustCar

namespace TrustCar

/-- The upload carried by a successful notify result. -/
def notifyFile : NotifyResult → Option Upload
  | .ok e => some e
  | _ => none

/-- Claim C10: intake never rejects a request for malformed declared
coordinates.  On the multipart endpoint a present non-empty coordinate
string is coerced with `parseFloat` — so a non-numeric string is stored
as `NaN` on the created upload — while an empty or absent field becomes
null, and the request succeeds for every coordinate string; the
S3-notify endpoint coerces every supplied coordinate value the same
way. -/
theorem c10_coordinate_coercion (data : Store) (id : String) (insp : Inspection)
    (t : String) (f : FileInfo) (b : UploadBody) (newId : String) (now : Int)
    (analysis : AnalysisOutcome) (cfg : Bool) (det : DetectOutcome) (dt : Int)
    (hfind : data.inspections.find? (fun x => x.id = id) = some insp) (ht : t ≠ "")
    (hh : hashToken t = insp.tokenHash) (hexp : now ≤ insp.tokenExpiry) :
    (intakeUpload data id (some t) (some f) (some b) newId now analysis cfg det dt).1 =
      .ok (intakeEntry id f (some b) newId now analysis cfg det dt) ∧
    (∀ s, b.lat = some s → s ≠ "" →
      (intakeEntry id f (some b) newId now analysis cfg det dt).lat =
        some (parseFloat s)) ∧
    (∀ s, b.lat = some s → s ≠ "" → parseFloat s = .nan →
      (intakeEntry id f (some b) newId now analysis cfg det dt).lat = some .nan) ∧
    (b.lat = some "" → (intakeEntry id f (some b) newId now analysis cfg det dt).lat = none) ∧
    (b.lat = none → (intakeEntry id f (some b) newId now analysis cfg det dt).lat = none) ∧
    (∀ (nb : NotifyBody) (bucket region nid : String),
      strTruthy nb.key → strTruthy nb.filename → ∀ s, nb.lat = .val s →
      (notifyFile (notifyUpload data id (some t) (some nb) bucket region nid now).1).map
        (fun e => e.lat) = some (some (parseFloat s))) := by
  have hs := intakeUpload_success data id insp t f (some b) newId now analysis cfg det dt
    hfind ht hh hexp
  have hlat : (intakeEntry id f (some b) newId now analysis cfg det dt).lat =
      coerceCoord (some b) (fun x => x.lat) := by
    unfold intakeEntry
    rw [(attachDetection_preserves cfg det dt _).2.2.2.1]
    rw [(enrichEntry_preserves analysis _).2.2.1]
    rfl
  refine ⟨by rw [hs], ?_, ?_, ?_, ?_, ?_⟩
  · intro s hbs hne
    rw [hlat]
    simp [coerceCoord, hbs, hne]
  · intro s hbs hne hnan
    rw [hlat]
    simp [coerceCoord, hbs, hne, hnan]
  · intro hbs
    rw [hlat]
    simp [coerceCoord, hbs]
  · intro hbs
    rw [hlat]
    simp [coerceCoord, hbs]
  · intro nb bucket region nid hk hf2 s hnbs
    simp only [notifyUpload, Option.getD_some, hk, hf2, Bool.not_true, Bool.or_self,
      Bool.false_eq_true, if_false, hfind]
    simp [ht, hh, not_lt.mpr hexp, notifyFile, coerceNotifyCoord, hnbs]

end TrustCar

namespace TrustCar

/-- The inspection used by the C10 witness. -/
def c10wInsp : Inspection :=
  { id := "insp-c10w", tokenHash := hashToken "tc", tokenExpiry := 400, status := "pending" }

/-- The store used by the C10 witness. -/
def c10wStore : Store := { inspections := [c10wInsp], uploads := [], vinRecords := [] }

/-- The file used by the C10 witness. -/
def c10wFile : FileInfo :=
  { filename := "p.jpg", originalname := "p.jpg", mimetype := "image/jpeg", size := 2 }

/-- The body used by the C10 witness: a non-numeric declared latitude. -/
def c10wBody : UploadBody := { lat := some "not-a-number" }

/-- Witness for C10: the concrete upload with a non-numeric latitude
succeeds and stores `NaN`. -/
theorem c10_coordinate_coercion_witness :
    (intakeUpload c10wStore "insp-c10w" (some "tc") (some c10wFile) (some c10wBody) "u10" 3
        .readError false .failed 0).1 =
      .ok (intakeEntry "insp-c10w" c10wFile (some c10wBody) "u10" 3 .readError false
        .failed 0) ∧
    (intakeEntry "insp-c10w" c10wFile (some c10wBody) "u10" 3 .readError false
      .failed 0).lat = some .nan :=
  ⟨(c10_coordinate_coercion c10wStore "insp-c10w" c10wInsp "tc" c10wFile c10wBody "u10" 3
      .readError false .failed 0 rfl (by decide) rfl (by decide)).1,
   (c10_coordinate_coercion c10wStore "insp-c10w" c10wInsp "tc" c10wFile c10wBody "u10" 3
      .readError false .failed 0 rfl (by decide) rfl (by decide)).2.2.1 "not-a-number" rfl
     (by decide) (by decide)⟩

end TrustCar
